import Mathlib

/-
Verification of the cover-letter generation pipeline of `src/app.py`
(Ancastal/Coverletter-Gen).

The pipeline validates a LinkedIn job-posting URL, builds a candidate
persona either from a scraped profile or from manual form fields, fetches
the posting, calls the generation backend, stores the result in the
session state, and supports revision of the produced text.

Parts of the repository that `src/app.py` imports (`src.cover_letter`,
`src.cover_letter_editor`) are not available; where a definition depends
on them it is modelled from the specification and marked as such in its
doc comment.  Everything else is translated directly from `src/app.py`.
-/

namespace CoverLetterGen

/-! ## URL validation (`validate_linkedin_url`, src/app.py lines 53-64)

The job branch checks the Python regex
`r'https?://(www\.)?linkedin\.com/jobs/view/\d+'` with `re.match`, which
anchors at the start of the string only: trailing characters are allowed.
We embed the regex as an explicit matcher over `List Char`.  `matchLit`
consumes a literal; `matchOpt` consumes an optional literal.  For the two
optional groups of this pattern the greedy, non-backtracking treatment is
exact: whenever the optional literal is consumable, the following
mandatory literal can never match the unconsumed input (its first
character differs from the optional literal's first character), so no
backtracking point is ever reachable. -/

/-- Consume the literal `p` from the front of `s`, returning the rest. -/
def matchLit : List Char → List Char → Option (List Char)
  | [], s => some s
  | _ :: _, [] => none
  | p :: ps, c :: cs => if c = p then matchLit ps cs else none

/-- Consume the optional literal `lit` from the front of `s` when present. -/
def matchOpt (lit s : List Char) : List Char :=
  match matchLit lit s with
  | some r => r
  | none => s

/-- The regex fragment `(opt)? lit`: optional group followed by a literal. -/
def optLitMatch (opt lit s : List Char) : Option (List Char) :=
  matchLit lit (matchOpt opt s)

/-- `\d` at the current position (the `\d+` of the pattern needs one digit,
since `re.match` permits trailing characters; ASCII digits, as in all the
inputs considered here). -/
def headIsDigit : List Char → Bool
  | [] => false
  | c :: _ => c.isDigit

/-- Literal `http` of the pattern. -/
def httpLit : List Char := ['h', 't', 't', 'p']

/-- Optional literal `s?` of the pattern. -/
def sLit : List Char := ['s']

/-- Literal `://` of the pattern. -/
def sepLit : List Char := [':', '/', '/']

/-- Optional group `(www\.)?` of the pattern. -/
def wwwLit : List Char := ['w', 'w', 'w', '.']

/-- Literal `linkedin\.com/jobs/view/` of the pattern. -/
def linkedinJobsLit : List Char :=
  ['l', 'i', 'n', 'k', 'e', 'd', 'i', 'n', '.', 'c', 'o', 'm', '/',
   'j', 'o', 'b', 's', '/', 'v', 'i', 'e', 'w', '/']

/-- `re.match(r'https?://(www\.)?linkedin\.com/jobs/view/\d+', s)` as a
Boolean: `http`, optional `s`, `://`, optional `www.`,
`linkedin.com/jobs/view/`, then at least one digit; anything may follow. -/
def jobUrlMatch (s : List Char) : Bool :=
  match matchLit httpLit s with
  | none => false
  | some s1 =>
    match optLitMatch sLit sepLit s1 with
    | none => false
    | some s3 =>
      match optLitMatch wwwLit linkedinJobsLit s3 with
      | none => false
      | some s5 => headIsDigit s5

/-- `validate_linkedin_url` (src/app.py lines 53-64) for `type="job"`, the
branch every caller in the claims uses: an empty URL is falsy and returns
`False`; otherwise the result is `bool(re.match(pattern, url))`. -/
def validate_linkedin_url (url : String) : Bool :=
  if url.data = [] then false else jobUrlMatch url.data

/-! ## Data model

`UserPersona` (from `src.cover_letter.user_persona`, constructed at
src/app.py lines 97 and 307) receives its `education` and `experience`
fields as whatever Python value the caller passes: a bare string on the
manual path (lines 306-307), a list of strings on the scraped path
(lines 83-90).  The specification's §9 records that no normalization of
the single string into a sequence is present in the observed behavior,
so the constructor stores the value as passed.  `PyVal` models this
dynamically-typed field. -/

/-- A Python value that is either a single string or a list of strings. -/
inductive PyVal where
  | str : String → PyVal
  | list : List String → PyVal
deriving DecidableEq

/-- Whether a `PyVal` is a sequence of strings (a Python list), as opposed
to a bare string. -/
def PyVal.isStringList : PyVal → Bool
  | .str _ => false
  | .list _ => true

/-- `UserPersona(name, education, experience, skills, certifications)`:
fields stored as passed (see module comment above). -/
structure UserPersona where
  name : String
  education : PyVal
  experience : PyVal
  skills : List String
  certifications : List String
deriving DecidableEq

/-! ## Scraped-profile normalization (src/app.py lines 79-97) -/

/-- One raw education entry of the scraped profile: `schoolName`,
`timePeriod.startDate.year`, and an optional `description`. -/
structure RawEducation where
  schoolName : String
  startYear : Nat
  description : Option String

/-- One raw experience entry: `title`, `companyName`, optional
`description`. -/
structure RawExperience where
  title : String
  companyName : String
  description : Option String

/-- One raw certification entry: `name` and `authority`. -/
structure RawCertification where
  name : String
  authority : String

/-- The raw structured profile returned by the fetch capability
(`api.get_profile` plus `api.get_profile_skills`). -/
structure RawProfile where
  firstName : String
  lastName : String
  education : List RawEducation
  experience : List RawExperience
  certifications : List RawCertification
  skills : List String

/-- `f"{edu['schoolName']} ({edu['timePeriod']['startDate']['year']}) -
{edu.get('description', 'No description available')}"` (line 84). -/
def eduEntryString (e : RawEducation) : String :=
  e.schoolName ++ " (" ++ toString e.startYear ++ ") - "
    ++ e.description.getD "No description available"

/-- `f"{exp['title']} at {exp['companyName']} -
{exp.get('description', 'No description available')}"` (line 88). -/
def expEntryString (e : RawExperience) : String :=
  e.title ++ " at " ++ e.companyName ++ " - "
    ++ e.description.getD "No description available"

/-- `f"{cert['name']} from {cert['authority']}"` (line 92). -/
def certEntryString (c : RawCertification) : String :=
  c.name ++ " from " ++ c.authority

/-- Lines 82-97: assemble the `UserPersona` from the raw profile. -/
def personaFromRaw (raw : RawProfile) : UserPersona :=
  { name := raw.firstName ++ " " ++ raw.lastName
  , education := .list (raw.education.map eduEntryString)
  , experience := .list (raw.experience.map expEntryString)
  , skills := raw.skills
  , certifications := raw.certifications.map certEntryString }

/-! ## Credentials resolution and profile scraping (src/app.py lines 66-99)

`scrape_profile` first tries `st.secrets[...]` for both credential keys;
any lookup failure falls through to the environment variables, and when
either of those is missing or empty (Python falsiness) it raises
`ValueError("LinkedIn credentials not found in secrets or environment
variables")`.  Only then does it invoke the fetch; any error raised
inside the fetch/normalization block is re-raised wrapped as
`Exception(f"Failed to scrape LinkedIn profile: {e}")`.

Each secrets entry is an `Option String` (`none` = the key is absent, so
the lookup raises); each environment entry is an `Option String`
(`none` = unset, `some ""` = set but empty — both falsy). -/

/-- The message of the `ValueError` raised at src/app.py line 77. -/
def credentialsMissingMsg : String :=
  "LinkedIn credentials not found in secrets or environment variables"

/-- Line 99's wrapping of an error raised inside the scraping block. -/
def wrapScrapeErr (msg : String) : String :=
  "Failed to scrape LinkedIn profile: " ++ msg

/-- Lines 68-77: secrets first (both keys must be present), then the
environment variables, which must both be set and non-empty. -/
def resolveCredentials (se sp ee ep : Option String) :
    Except String (String × String) :=
  match se, sp with
  | some e, some p => Except.ok (e, p)
  | _, _ =>
    if ee.getD "" = "" ∨ ep.getD "" = "" then
      Except.error credentialsMissingMsg
    else Except.ok (ee.getD "", ep.getD "")

/-- Lines 66-99: resolve credentials, then fetch and normalize the
profile.  The fetch capability (`Linkedin(email, pwd)` +
`api.get_profile(pid)` + `api.get_profile_skills(pid)`) is a parameter;
the second component of the result records whether it was invoked. -/
def scrape_profile (se sp ee ep : Option String)
    (fetch : String → String → String → Except String RawProfile)
    (pid : String) : Except String UserPersona × Bool :=
  match resolveCredentials se sp ee ep with
  | Except.error m => (Except.error m, false)
  | Except.ok (email, pwd) =>
    match fetch email pwd pid with
    | Except.error m => (Except.error (wrapScrapeErr m), true)
    | Except.ok raw => (Except.ok (personaFromRaw raw), true)

/-- Substring test over character lists, as Python's `in` on strings
(src/app.py line 339). -/
def hasSubstring (needle : List Char) : List Char → Bool
  | [] => needle.isEmpty
  | c :: rest => needle.isPrefixOf (c :: rest) || hasSubstring needle rest

/-- Line 339: the caller's error handler shows the manual-input fallback
suggestion exactly when `"credentials not found" in str(e)`. -/
def error_shows_fallback (msg : String) : Bool :=
  hasSubstring ("credentials not found".data) msg.data

/-! ## Manual persona construction (src/app.py lines 302-307) -/

/-- Lines 302-307: `if not name or not experience` report an error and
return; otherwise synthesize `education = f"{education_level} in
{education_field}"` and build the `UserPersona`. -/
def build_persona_from_manual_input (name level field experience : String)
    (skills certifications : List String) : Except String UserPersona :=
  if name = "" ∨ experience = "" then
    Except.error "Please fill in all required fields"
  else
    Except.ok
      { name := name
      , education := .str (level ++ " in " ++ field)
      , experience := .str experience
      , skills := skills
      , certifications := certifications }

/-! ## Job-posting fetch

`scrape_job_posting` lives in `src/cover_letter.py`, which is not part of
the available sources; only its caller (src/app.py line 310) and the
validator it is specified to use are.  It is therefore modelled from the
specification (§4.2). -/

/-- The normalized job posting (spec §3). -/
structure JobPosting where
  title : String
  company : String
  description : String
  location : Option String
  url : Option String
deriving DecidableEq

/-- Failures of the posting fetch (spec §4.2). -/
inductive FetchError where
  | invalidURL
  | postingUnavailable (msg : String)
deriving DecidableEq

/-- Modelled from the spec: `scrape_job_posting` (src/cover_letter.py is
not among the available sources).  Spec §4.2: "Given a posting URL,
validates it matches the expected posting-URL shape …; fails with
`InvalidURLError` otherwise without attempting network access.  On a
valid URL, delegates to an external posting-fetch capability and maps its
raw payload into `JobPosting`."  The validator is the real
`validate_linkedin_url` of src/app.py; the fetch capability is a
parameter, and the second component of the result records whether it was
invoked. -/
def scrape_job_posting (fetch : String → Except String JobPosting)
    (url : String) : Except FetchError JobPosting × Bool :=
  if validate_linkedin_url url then
    match fetch url with
    | Except.ok jp => (Except.ok jp, true)
    | Except.error m => (Except.error (FetchError.postingUnavailable m), true)
  else (Except.error FetchError.invalidURL, false)

/-! ## The generate operation (src/app.py lines 289-340)

Pressing the Generate button runs, inside one `try` block: persona
construction (`scrape_profile` or the manual build), the posting fetch
(`scrape_job_posting`), and the backend call (`query`).  Only after all
three succeed are `st.session_state.cover_letter` and
`st.session_state.editor_active` assigned (lines 314-315); any exception
jumps to the handler at line 337, which displays the error and leaves the
session state untouched.  The editor tab exists only while
`st.session_state.cover_letter` is not `None` (lines 146-147). -/

/-- The backend's response: `query` returns a dict with a `'text'` entry
(line 311/321) plus backend diagnostics. -/
structure GenerationResult where
  text : String
  metadata : List (String × String)
deriving DecidableEq

/-- The stored session state: `st.session_state.cover_letter`
(`None` initially) and `st.session_state.editor_active` (lines 152-156). -/
structure SessionState where
  cover_letter : Option GenerationResult
  editor_active : Bool
deriving DecidableEq

/-- Lines 289-315 of `main`: run the three stages in order; on the first
failure return the unchanged state together with the error shown; on full
success store the response and activate the editor. -/
def generate_flow (st0 : SessionState)
    (personaStage : Except String UserPersona)
    (postingStage : Except String JobPosting)
    (backendStage : UserPersona → JobPosting → Except String GenerationResult) :
    SessionState × Option String :=
  match personaStage with
  | Except.error e => (st0, some e)
  | Except.ok user =>
    match postingStage with
    | Except.error e => (st0, some e)
    | Except.ok jp =>
      match backendStage user jp with
      | Except.error e => (st0, some e)
      | Except.ok response =>
        ({ cover_letter := some response, editor_active := true }, none)

/-! ## Revision session

`CoverLetterEditor` lives in `src/cover_letter_editor.py`, which is not
among the available sources; the caller (src/app.py lines 263-269)
replaces the stored text only when the edited text differs.  The history
is modelled from the specification (§4.5). -/

/-- The revision state (spec §3): the live letter text and the ordered
edit history. -/
structure RevisionState where
  current_text : String
  history : List String
deriving DecidableEq

namespace RevisionSession

/-- Modelled from the spec: `RevisionSession.start` (§4.5) —
`current_text = initial_text`, `history = [initial_text]`
(src/cover_letter_editor.py is not among the available sources). -/
def start (initial_text : String) : RevisionState :=
  { current_text := initial_text, history := [initial_text] }

/-- Modelled from the spec: `RevisionSession.apply_edit` (§4.5) —
"replaces `current_text`; appends the prior value to `history` only if it
differs from `new_text`" (src/cover_letter_editor.py is not among the
available sources; the differs-guard is also the caller's, src/app.py
lines 267-268). -/
def apply_edit (st : RevisionState) (new_text : String) : RevisionState :=
  { current_text := new_text
  , history :=
      if new_text = st.current_text then st.history
      else st.history ++ [st.current_text] }

end RevisionSession

/-! ## Lemmas: the URL matcher examines only a prefix of its input -/

theorem matchLit_append (p : List Char) :
    ∀ (s r t : List Char), matchLit p s = some r →
      matchLit p (s ++ t) = some (r ++ t) := by
  induction p with
  | nil =>
    intro s r t h
    simp only [matchLit, Option.some.injEq] at h
    subst h
    simp [matchLit]
  | cons q ps ih =>
    intro s r t h
    cases s with
    | nil => simp [matchLit] at h
    | cons c cs =>
      simp only [matchLit] at h
      by_cases hc : c = q
      · rw [if_pos hc] at h
        simpa only [List.cons_append, matchLit, if_pos hc] using ih cs r t h
      · rw [if_neg hc] at h
        exact Option.noConfusion h

theorem matchLit_none_append (p : List Char) :
    ∀ (s t : List Char), matchLit p s = none →
      matchLit p (s ++ t) = none ∨ s <+: p := by
  induction p with
  | nil => intro s t h; simp [matchLit] at h
  | cons q ps ih =>
    intro s t h
    cases s with
    | nil => exact Or.inr ⟨q :: ps, rfl⟩
    | cons c cs =>
      simp only [matchLit] at h
      by_cases hc : c = q
      · rw [if_pos hc] at h
        rcases ih cs t h with h' | ⟨u, hu⟩
        · left
          simp only [List.cons_append, matchLit, if_pos hc]
          exact h'
        · right
          exact ⟨u, by rw [List.cons_append, hu, hc]⟩
      · left
        simp only [List.cons_append, matchLit, if_neg hc]

theorem matchOpt_eq_of_some {lit s q : List Char}
    (h : matchLit lit s = some q) : matchOpt lit s = q := by
  simp [matchOpt, h]

theorem matchOpt_eq_of_none {lit s : List Char}
    (h : matchLit lit s = none) : matchOpt lit s = s := by
  simp [matchOpt, h]

/-- Appending more input does not change a successful `(opt)? lit` match,
provided `lit` can never match a remainder left by an exhausted optional
group (every prefix of `opt` mismatches `lit`). -/
theorem optLitMatch_append (opt lit : List Char)
    (hsafe : ∀ s', s' <+: opt → matchLit lit s' = none) :
    ∀ (s r t : List Char), optLitMatch opt lit s = some r →
      optLitMatch opt lit (s ++ t) = some (r ++ t) := by
  intro s r t h
  unfold optLitMatch at h ⊢
  cases h2 : matchLit opt s with
  | some q =>
    rw [matchOpt_eq_of_some h2] at h
    rw [matchOpt_eq_of_some (matchLit_append opt s q t h2)]
    exact matchLit_append lit q r t h
  | none =>
    rw [matchOpt_eq_of_none h2] at h
    rcases matchLit_none_append opt s t h2 with h2' | hpre
    · rw [matchOpt_eq_of_none h2']
      exact matchLit_append lit s r t h
    · rw [hsafe s hpre] at h
      exact Option.noConfusion h

theorem sepLit_no_match_in_sLit :
    ∀ s', s' <+: sLit → matchLit sepLit s' = none := by
  intro s' hp
  rcases hp with ⟨u, hu⟩
  cases s' with
  | nil => rfl
  | cons c cs =>
    rw [List.cons_append] at hu
    simp only [sLit] at hu
    injection hu with h1 h2
    subst h1
    simp only [sepLit, matchLit]
    rw [if_neg (by decide)]

theorem linkedinJobsLit_no_match_in_wwwLit :
    ∀ s', s' <+: wwwLit → matchLit linkedinJobsLit s' = none := by
  intro s' hp
  rcases hp with ⟨u, hu⟩
  cases s' with
  | nil => rfl
  | cons c cs =>
    rw [List.cons_append] at hu
    simp only [wwwLit] at hu
    injection hu with h1 h2
    subst h1
    simp only [linkedinJobsLit, matchLit]
    rw [if_neg (by decide)]

theorem jobUrlMatch_eq_true_iff (s : List Char) :
    jobUrlMatch s = true ↔
      ∃ s1 s3 s5, matchLit httpLit s = some s1
        ∧ optLitMatch sLit sepLit s1 = some s3
        ∧ optLitMatch wwwLit linkedinJobsLit s3 = some s5
        ∧ headIsDigit s5 = true := by
  constructor
  · intro h
    unfold jobUrlMatch at h
    cases h1 : matchLit httpLit s with
    | none =>
      simp only [h1] at h
      exact Bool.noConfusion h
    | some s1 =>
      simp only [h1] at h
      cases h2 : optLitMatch sLit sepLit s1 with
      | none =>
        simp only [h2] at h
        exact Bool.noConfusion h
      | some s3 =>
        simp only [h2] at h
        cases h3 : optLitMatch wwwLit linkedinJobsLit s3 with
        | none =>
          simp only [h3] at h
          exact Bool.noConfusion h
        | some s5 =>
          simp only [h3] at h
          exact ⟨s1, s3, s5, rfl, h2, h3, h⟩
  · rintro ⟨s1, s3, s5, h1, h2, h3, h5⟩
    unfold jobUrlMatch
    simp only [h1, h2, h3]
    exact h5

theorem jobUrlMatch_append (s t : List Char) (h : jobUrlMatch s = true) :
    jobUrlMatch (s ++ t) = true := by
  rcases (jobUrlMatch_eq_true_iff s).mp h with ⟨s1, s3, s5, h1, h2, h3, h5⟩
  refine (jobUrlMatch_eq_true_iff (s ++ t)).mpr
    ⟨s1 ++ t, s3 ++ t, s5 ++ t,
      matchLit_append httpLit s s1 t h1,
      optLitMatch_append sLit sepLit sepLit_no_match_in_sLit s1 s3 t h2,
      optLitMatch_append wwwLit linkedinJobsLit
        linkedinJobsLit_no_match_in_wwwLit s3 s5 t h3, ?_⟩
  cases s5 with
  | nil => exact Bool.noConfusion h5
  | cons c cs => simpa [headIsDigit] using h5

/-! ## Claim theorems -/

/-- C7: the job-posting URL validator returns `true` for
`https://www.linkedin.com/jobs/view/3544765357/` and `false` for
`https://example.com/jobs/1` and
`https://www.linkedin.com/jobs/view/abc`. -/
theorem url_validator_examples :
    validate_linkedin_url "https://www.linkedin.com/jobs/view/3544765357/" = true
  ∧ validate_linkedin_url "https://example.com/jobs/1" = false
  ∧ validate_linkedin_url "https://www.linkedin.com/jobs/view/abc" = false :=
  ⟨rfl, rfl, rfl⟩

/-- C9: the URL validator is anchored only at the start: any accepted URL
stays accepted after appending arbitrary trailing characters, the URL
`https://www.linkedin.com/jobs/view/1abc?x=y` (one digit, then junk) is
accepted, and the empty string is rejected. -/
theorem url_validator_anchored_at_start_only :
    (∀ s t : String, validate_linkedin_url s = true →
        validate_linkedin_url (s ++ t) = true)
  ∧ validate_linkedin_url "https://www.linkedin.com/jobs/view/1abc?x=y" = true
  ∧ validate_linkedin_url "" = false := by
  refine ⟨?_, by rfl, by rfl⟩
  intro s t h
  unfold validate_linkedin_url at h ⊢
  have hdata : (s ++ t).data = s.data ++ t.data := rfl
  by_cases hd : s.data = []
  · rw [if_pos hd] at h
    exact Bool.noConfusion h
  · rw [if_neg hd] at h
    rw [hdata]
    rw [if_neg (fun hc => hd (List.append_eq_nil.mp hc).1)]
    exact jobUrlMatch_append s.data t.data h

/-- Witness for C9 at a concrete accepted URL and a concrete suffix. -/
theorem url_validator_anchored_at_start_only_witness :
    validate_linkedin_url
      ("https://www.linkedin.com/jobs/view/3544765357/" ++ "?refId=abc")
      = true :=
  url_validator_anchored_at_start_only.1
    "https://www.linkedin.com/jobs/view/3544765357/" "?refId=abc" (by rfl)

/-- C1: generation is atomic.  Whenever any stage fails, the generate
operation returns the session state unchanged (no partial result stored,
no editor activated); and when no error is reported, every stage
succeeded and the stored result is exactly the backend's response. -/
theorem generation_atomic (st0 : SessionState)
    (ps : Except String UserPersona) (js : Except String JobPosting)
    (bs : UserPersona → JobPosting → Except String GenerationResult) :
    (∀ e, (generate_flow st0 ps js bs).2 = some e →
        (generate_flow st0 ps js bs).1 = st0)
  ∧ ((generate_flow st0 ps js bs).2 = none →
      ∃ u j r, ps = Except.ok u ∧ js = Except.ok j ∧ bs u j = Except.ok r
        ∧ (generate_flow st0 ps js bs).1
            = { cover_letter := some r, editor_active := true }) := by
  cases ps with
  | error e => simp [generate_flow]
  | ok u =>
    cases js with
    | error e => simp [generate_flow]
    | ok j =>
      cases hb : bs u j with
      | error e => simp [generate_flow, hb]
      | ok r => simp [generate_flow, hb]

/-- Witness for C1: a failing persona stage leaves the session state
untouched. -/
theorem generation_atomic_witness :
    (generate_flow { cover_letter := none, editor_active := false }
        (Except.error "persona build failed")
        (Except.ok { title := "T", company := "C", description := "D",
                     location := none, url := none })
        (fun _ _ => Except.ok { text := "letter", metadata := [] })).1
      = { cover_letter := none, editor_active := false } :=
  (generation_atomic _ _ _ _).1 "persona build failed" rfl

/-- C2: for every posting URL the validator rejects, the job-posting
fetch fails with `InvalidURLError` and the posting-fetch capability is
never invoked. -/
theorem posting_fetch_invalid_url (fetch : String → Except String JobPosting)
    (url : String) (h : validate_linkedin_url url = false) :
    (scrape_job_posting fetch url).1 = Except.error FetchError.invalidURL
  ∧ (scrape_job_posting fetch url).2 = false := by
  simp [scrape_job_posting, h]

/-- Witness for C2 at the concrete rejected URL
`https://example.com/jobs/1`. -/
theorem posting_fetch_invalid_url_witness :
    (scrape_job_posting (fun _ => Except.error "network")
        "https://example.com/jobs/1").1 = Except.error FetchError.invalidURL :=
  (posting_fetch_invalid_url (fun _ => Except.error "network")
    "https://example.com/jobs/1" (by rfl)).1

/-- C4: `apply_edit` with the current text is a no-op (state, hence both
current text and history length, unchanged); with a different text it
replaces the current text and appends exactly the prior value to the
history. -/
theorem apply_edit_noop_or_appends (st : RevisionState) (t : String) :
    (t = st.current_text → RevisionSession.apply_edit st t = st)
  ∧ (t ≠ st.current_text →
      (RevisionSession.apply_edit st t).current_text = t
      ∧ (RevisionSession.apply_edit st t).history
          = st.history ++ [st.current_text]
      ∧ (RevisionSession.apply_edit st t).history.length
          = st.history.length + 1) := by
  constructor
  · intro h
    cases st
    simp only [RevisionSession.apply_edit, if_pos h]
    rw [h]
  · intro h
    simp [RevisionSession.apply_edit, h]

/-- Witness for C4: a same-text edit leaves the state unchanged, a
different-text edit grows the history to length 2. -/
theorem apply_edit_noop_or_appends_witness :
    RevisionSession.apply_edit { current_text := "a", history := ["a"] } "a"
        = { current_text := "a", history := ["a"] }
  ∧ (RevisionSession.apply_edit
        { current_text := "a", history := ["a"] } "b").history.length = 2 :=
  ⟨(apply_edit_noop_or_appends { current_text := "a", history := ["a"] } "a").1
      rfl,
   ((apply_edit_noop_or_appends { current_text := "a", history := ["a"] } "b").2
      (by decide)).2.2⟩

/-- C5: for non-empty name and experience, the manual build succeeds and
the persona's education is the literal concatenation
`"{level} in {field}"`. -/
theorem manual_persona_success (name level field experience : String)
    (skills certifications : List String)
    (hn : name ≠ "") (he : experience ≠ "") :
    build_persona_from_manual_input name level field experience
        skills certifications
      = Except.ok
          { name := name
          , education := PyVal.str (level ++ " in " ++ field)
          , experience := PyVal.str experience
          , skills := skills
          , certifications := certifications } := by
  simp [build_persona_from_manual_input, hn, he]

/-- Witness for C5 at concrete manual fields. -/
theorem manual_persona_success_witness :
    build_persona_from_manual_input "Jane Doe" "PhD" "Computer Science"
        "Engineer at Acme" ["Python"] ["AWS"]
      = Except.ok
          { name := "Jane Doe"
          , education := PyVal.str "PhD in Computer Science"
          , experience := PyVal.str "Engineer at Acme"
          , skills := ["Python"]
          , certifications := ["AWS"] } :=
  manual_persona_success "Jane Doe" "PhD" "Computer Science" "Engineer at Acme"
    ["Python"] ["AWS"] (by decide) (by decide)

/-- C6: with an empty name or empty experience, the manual build fails
with the input-validation error and constructs no persona. -/
theorem manual_persona_missing_fields (name level field experience : String)
    (skills certifications : List String)
    (h : name = "" ∨ experience = "") :
    build_persona_from_manual_input name level field experience
        skills certifications
      = Except.error "Please fill in all required fields" := by
  unfold build_persona_from_manual_input
  rw [if_pos h]

/-- Witness for C6 at an empty name. -/
theorem manual_persona_missing_fields_witness :
    build_persona_from_manual_input "" "PhD" "Computer Science"
        "Engineer at Acme" [] []
      = Except.error "Please fill in all required fields" :=
  manual_persona_missing_fields "" "PhD" "Computer Science" "Engineer at Acme"
    [] [] (Or.inl rfl)

/-- C8: credential resolution tries the configured secrets first, then
the environment variables, and fails with the credentials-missing error
— with the fetch capability never invoked — exactly when neither source
supplies both credential fields (secrets: both keys present;
environment: both variables set and non-empty). -/
theorem credentials_resolution (se sp ee ep : Option String)
    (fetch : String → String → String → Except String RawProfile)
    (pid : String) :
    (∀ e p, se = some e → sp = some p →
        resolveCredentials se sp ee ep = Except.ok (e, p))
  ∧ (resolveCredentials se sp ee ep = Except.error credentialsMissingMsg
       ↔ ((se = none ∨ sp = none)
            ∧ (ee.getD "" = "" ∨ ep.getD "" = "")))
  ∧ (resolveCredentials se sp ee ep = Except.error credentialsMissingMsg →
       (scrape_profile se sp ee ep fetch pid).2 = false
       ∧ (scrape_profile se sp ee ep fetch pid).1
           = Except.error credentialsMissingMsg) := by
  refine ⟨?_, ?_, ?_⟩
  · intro e p he hp
    subst he
    subst hp
    rfl
  · cases se with
    | some e =>
      cases sp with
      | some p => simp [resolveCredentials]
      | none =>
        simp only [resolveCredentials]
        by_cases h : ee.getD "" = "" ∨ ep.getD "" = ""
        · rw [if_pos h]
          simp [h]
        · rw [if_neg h]
          simp [h]
    | none =>
      cases sp with
      | some p =>
        simp only [resolveCredentials]
        by_cases h : ee.getD "" = "" ∨ ep.getD "" = ""
        · rw [if_pos h]
          simp [h]
        · rw [if_neg h]
          simp [h]
      | none =>
        simp only [resolveCredentials]
        by_cases h : ee.getD "" = "" ∨ ep.getD "" = ""
        · rw [if_pos h]
          simp [h]
        · rw [if_neg h]
          simp [h]
  · intro h
    constructor
    · simp [scrape_profile, h]
    · simp [scrape_profile, h]

/-- Witness for C8: with no secrets and no environment variables the
fetch is not invoked. -/
theorem credentials_resolution_witness :
    (scrape_profile none none none none
        (fun _ _ _ => Except.error "net") "johndoe").2 = false :=
  ((credentials_resolution none none none none
      (fun _ _ _ => Except.error "net") "johndoe").2.2 (by rfl)).1

/-- C10 counterexample: the caller keys the fallback suggestion on the
substring `"credentials not found"` of the displayed message
(src/app.py line 339), so a wrapped fetch failure whose inner message
contains that substring also triggers the fallback, although it is not
the missing-credentials error. -/
theorem fallback_shown_for_wrapped_error_counterexample :
    (scrape_profile (some "user@mail.com") (some "pw") none none
        (fun _ _ _ => Except.error "credentials not found") "johndoe").1
      = Except.error "Failed to scrape LinkedIn profile: credentials not found"
  ∧ (scrape_profile (some "user@mail.com") (some "pw") none none
        (fun _ _ _ => Except.error "credentials not found") "johndoe").2 = true
  ∧ error_shows_fallback
        "Failed to scrape LinkedIn profile: credentials not found" = true
  ∧ "Failed to scrape LinkedIn profile: credentials not found"
        ≠ credentialsMissingMsg :=
  ⟨rfl, rfl, by decide, by decide⟩

/-- C10 (amended): every error from the profile fetch/normalization is
wrapped with the prefix `"Failed to scrape LinkedIn profile: "`; the
missing-credentials error is raised before that wrapping, never carries
the prefix, and always triggers the caller's fallback suggestion — but
the fallback is keyed on the substring `"credentials not found"` of the
message, so a wrapped error containing that substring triggers it as
well. -/
theorem scrape_error_wrapping (se sp ee ep : Option String)
    (fetch : String → String → String → Except String RawProfile)
    (pid : String) (creds : String × String) (m : String)
    (hc : resolveCredentials se sp ee ep = Except.ok creds)
    (hf : fetch creds.1 creds.2 pid = Except.error m) :
    (scrape_profile se sp ee ep fetch pid).1
        = Except.error (wrapScrapeErr m)
  ∧ ("Failed to scrape LinkedIn profile: ".data).isPrefixOf
        credentialsMissingMsg.data = false
  ∧ error_shows_fallback credentialsMissingMsg = true := by
  obtain ⟨email, pwd⟩ := creds
  refine ⟨?_, by decide, by decide⟩
  simp [scrape_profile, hc, hf]

/-- Witness for C10's amended statement at a concrete fetch failure. -/
theorem scrape_error_wrapping_witness :
    (scrape_profile (some "user@mail.com") (some "pw") none none
        (fun _ _ _ => Except.error "rate limited") "johndoe").1
      = Except.error (wrapScrapeErr "rate limited") :=
  (scrape_error_wrapping (some "user@mail.com") (some "pw") none none
    (fun _ _ _ => Except.error "rate limited") "johndoe"
    ("user@mail.com", "pw") "rate limited" rfl rfl).1

/-- C3 counterexample: on the manual path the persona's education field
is the bare synthesized string, not a one-element sequence of strings. -/
theorem manual_education_not_sequence_counterexample :
    build_persona_from_manual_input "Jane Doe" "PhD" "Computer Science"
        "Engineer at Acme" [] []
      = Except.ok
          { name := "Jane Doe"
          , education := PyVal.str "PhD in Computer Science"
          , experience := PyVal.str "Engineer at Acme"
          , skills := []
          , certifications := [] }
  ∧ (PyVal.str "PhD in Computer Science").isStringList = false
  ∧ PyVal.str "PhD in Computer Science"
      ≠ PyVal.list ["PhD in Computer Science"] :=
  ⟨rfl, rfl, by decide⟩

/-- C3 (amended): a persona built from scraped data has education a
sequence of strings with one string per raw education entry; a persona
built from valid manual input has education equal to the bare
synthesized string `"{level} in {field}"`, which is not a sequence. -/
theorem persona_education_shapes (raw : RawProfile)
    (name level field experience : String)
    (skills certifications : List String)
    (hn : name ≠ "") (he : experience ≠ "") :
    (personaFromRaw raw).education
        = PyVal.list (raw.education.map eduEntryString)
  ∧ (raw.education.map eduEntryString).length = raw.education.length
  ∧ (∃ p, build_persona_from_manual_input name level field experience
            skills certifications = Except.ok p
        ∧ p.education = PyVal.str (level ++ " in " ++ field)
        ∧ p.education.isStringList = false) := by
  refine ⟨rfl, by simp, ?_⟩
  refine ⟨{ name := name
          , education := PyVal.str (level ++ " in " ++ field)
          , experience := PyVal.str experience
          , skills := skills
          , certifications := certifications }, ?_, rfl, rfl⟩
  simp [build_persona_from_manual_input, hn, he]

/-- Witness for C3's amended statement: a one-entry scraped profile
yields a one-element education sequence. -/
theorem persona_education_shapes_witness :
    (personaFromRaw
        { firstName := "John", lastName := "Doe"
        , education :=
            [{ schoolName := "MIT", startYear := 2020, description := none }]
        , experience := [], certifications := [], skills := [] }).education
      = PyVal.list ["MIT (2020) - No description available"] :=
  (persona_education_shapes
      { firstName := "John", lastName := "Doe"
      , education :=
          [{ schoolName := "MIT", startYear := 2020, description := none }]
      , experience := [], certifications := [], skills := [] }
      "Jane Doe" "PhD" "Computer Science" "Engineer at Acme" [] []
      (by decide) (by decide)).1

end CoverLetterGen
